import Mathlib

/-!
Verification of the succulent_identifier inference service.

Shallow embedding of src/ml_service/src/preprocessing.py and
src/ml_service/src/inference.py.  Machine floats are idealised as elements
of a linear ordered field (instantiated at ℝ with Real.exp in the
theorems); Python exceptions become an explicit error type; the filesystem
and the PIL decoder are modelled as an explicit map from paths to entries.
-/

namespace SucculentML

/-- Python exception classes that the source code can raise or propagate.
The spec's error taxonomy names a ConfigError class; it is included here so
that statements about it can be written, but the source never defines nor
raises it. -/
inductive PyError
  | fileNotFoundError (msg : String)
  | ioError (msg : String)
  | jsonDecodeError (msg : String)
  | attributeError (msg : String)
  | valueError (msg : String)
  | runtimeError (msg : String)
  | keyError (msg : String)
  | configError (msg : String)
deriving DecidableEq

/-- Python str(e): the message carried by the exception. -/
def PyError.str : PyError → String
  | .fileNotFoundError m => m
  | .ioError m => m
  | .jsonDecodeError m => m
  | .attributeError m => m
  | .valueError m => m
  | .runtimeError m => m
  | .keyError m => m
  | .configError m => m

/-- Whether an error is the spec's ConfigError class. -/
def PyError.isConfigError : PyError → Bool
  | .configError _ => true
  | _ => false

/-! ## Images (PIL model) -/

/-- PIL image modes relevant to the service. -/
inductive ImageMode
  | RGB
  | L
  | RGBA
deriving DecidableEq

/-- A pixel in one of the modelled modes.  Channel values are the exact
rationals the 8-bit samples denote. -/
inductive Pixel
  | gray (v : ℚ)
  | rgb (r g b : ℚ)
  | rgba (r g b a : ℚ)
deriving DecidableEq

/-- PIL Image: a mode tag plus a pixel grid accessed by row and column. -/
structure PILImage where
  mode : ImageMode
  height : Nat
  width : Nat
  px : Nat → Nat → Pixel

/-- PIL convert('RGB') on a single pixel: gray is replicated into the three
channels, RGBA drops the alpha channel, RGB is unchanged. -/
def pixelToRGB : Pixel → Pixel
  | .gray v => .rgb v v v
  | .rgba r g b _ => .rgb r g b
  | .rgb r g b => .rgb r g b

/-- PIL image.convert('RGB'). -/
def PILImage.convertRGB (im : PILImage) : PILImage :=
  { mode := .RGB, height := im.height, width := im.width,
    px := fun y x => pixelToRGB (im.px y x) }

/-- The conditional conversion in ImagePreprocessor.load_image:
if image.mode != 'RGB' then image = image.convert('RGB'). -/
def PILImage.ensureRGB (im : PILImage) : PILImage :=
  if im.mode = .RGB then im else im.convertRGB

/-- Number of channels a mode carries (what torchvision ToTensor emits). -/
def ImageMode.channels : ImageMode → Nat
  | .RGB => 3
  | .L => 1
  | .RGBA => 4

/-- Channel c of a pixel. -/
def Pixel.channel : Pixel → Nat → ℚ
  | .gray v, _ => v
  | .rgb r g b, c => if c = 0 then r else if c = 1 then g else b
  | .rgba r g b a, c =>
      if c = 0 then r else if c = 1 then g else if c = 2 then b else a

/-! ## Tensors and the preprocessing transform -/

/-- A tensor: a shape plus a value for each multi-index. -/
structure Tensor where
  shape : List Nat
  val : List Nat → ℚ

/-- transforms.Resize((img_size, img_size)): both spatial dimensions become
img_size.  torchvision resamples with a fixed deterministic interpolation
kernel; it is modelled by a deterministic index-remapping resample (the
claims about this stage concern only the output shape and determinism). -/
def PILImage.resizeTo (im : PILImage) (s : Nat) : PILImage :=
  { mode := im.mode, height := s, width := s,
    px := fun y x => im.px (y * im.height / s) (x * im.width / s) }

/-- transforms.ToTensor(): channels × height × width, samples scaled by
1/255. -/
def toTensor (im : PILImage) : Tensor :=
  { shape := [im.mode.channels, im.height, im.width],
    val := fun idx =>
      match idx with
      | [c, y, x] => (im.px y x).channel c / 255
      | _ => 0 }

/-- The per-channel normalization means of transforms.Normalize. -/
def meanC : Nat → ℚ
  | 0 => 0.485
  | 1 => 0.456
  | _ => 0.406

/-- The per-channel normalization standard deviations. -/
def stdC : Nat → ℚ
  | 0 => 0.229
  | 1 => 0.224
  | _ => 0.225

/-- transforms.Normalize(mean, std): per-channel affine rescale. -/
def normalizeT (t : Tensor) : Tensor :=
  { shape := t.shape,
    val := fun idx =>
      match idx with
      | c :: _ => (t.val idx - meanC c) / stdC c
      | [] => t.val [] }

/-- tensor.unsqueeze(0): prepend a batch dimension of 1. -/
def unsqueeze0 (t : Tensor) : Tensor :=
  { shape := 1 :: t.shape,
    val := fun idx =>
      match idx with
      | _ :: rest => t.val rest
      | [] => 0 }

/-- ImagePreprocessor (preprocessing.py): holds the target size. -/
structure ImagePreprocessor where
  img_size : Nat

/-- self.transform: Resize then ToTensor then Normalize. -/
def ImagePreprocessor.transform (p : ImagePreprocessor) (im : PILImage) :
    Tensor :=
  normalizeT (toTensor (im.resizeTo p.img_size))

/-- ImagePreprocessor.preprocess: apply the transform and add the batch
dimension. -/
def ImagePreprocessor.preprocess (p : ImagePreprocessor) (im : PILImage) :
    Tensor :=
  unsqueeze0 (p.transform im)

/-! ## Filesystem and image loading -/

/-- What PIL Image.open finds at a path: nothing, bytes it cannot decode
(raising an exception with the given message), or a decodable image. -/
inductive FileEntry
  | missing
  | undecodable (msg : String)
  | image (im : PILImage)

/-- The filesystem as seen by the service. -/
def FileSys := String → FileEntry

/-- ImagePreprocessor.load_image: open, convert to RGB when needed,
re-raise FileNotFoundError with its own message, wrap any other decode
failure into an IOError. -/
def ImagePreprocessor.load_image (_ : ImagePreprocessor) (fs : FileSys)
    (image_path : String) : Except PyError PILImage :=
  match fs image_path with
  | .missing =>
      .error (.fileNotFoundError ("Image file not found: " ++ image_path))
  | .undecodable msg =>
      .error (.ioError ("Error loading image " ++ image_path ++ ": " ++ msg))
  | .image im => .ok im.ensureRGB

/-- ImagePreprocessor.preprocess_from_path: load then preprocess. -/
def ImagePreprocessor.preprocess_from_path (p : ImagePreprocessor)
    (fs : FileSys) (image_path : String) : Except PyError Tensor :=
  match p.load_image fs image_path with
  | .error e => .error e
  | .ok im => .ok (p.preprocess im)

/-! ## Label table loading (inference.py load_labels) -/

/-- What json.load finds in the labels file: the file may be missing, the
text may fail to parse (json.JSONDecodeError), the top-level value may not
be an object (then labels_data.items() raises AttributeError), or it is an
object, given as its items in insertion order (json.load has already kept
only the last occurrence of any textually duplicated key). -/
inductive LabelsFile
  | missing
  | invalidJson (msg : String)
  | nonObject
  | object (entries : List (String × String))

/-- Value of a decimal digit character, none for a non-digit. -/
def digitVal (c : Char) : Option Nat :=
  if c.isDigit then some (c.toNat - 48) else none

/-- A nonempty all-digit character list read as a number. -/
def parseDigits (cs : List Char) : Option Nat :=
  cs.foldl
    (fun acc c =>
      match acc, digitVal c with
      | some n, some d => some (n * 10 + d)
      | _, _ => none)
    (if cs.isEmpty then none else some 0)

/-- Python's built-in int(s) on a string: surrounding whitespace is
stripped, then an optional sign followed by decimal digits; anything else
raises ValueError.  (Digit-group underscores of numeric literals are not
modelled; no claim exercises them.) -/
def pyInt (s : String) : Except PyError ℤ :=
  let cs :=
    ((s.toList.dropWhile (fun c => c.isWhitespace)).reverse.dropWhile
      (fun c => c.isWhitespace)).reverse
  let fail : Except PyError ℤ :=
    .error (.valueError
      ("invalid literal for int() with base 10: " ++ s))
  match cs with
  | '-' :: rest =>
      match parseDigits rest with
      | some n => .ok (-(n : ℤ))
      | none => fail
  | '+' :: rest =>
      match parseDigits rest with
      | some n => .ok (n : ℤ)
      | none => fail
  | other =>
      match parseDigits other with
      | some n => .ok (n : ℤ)
      | none => fail

/-- Python dict lookup d[k] on an insertion-ordered association list. -/
def dictGet : List (ℤ × String) → ℤ → Option String
  | [], _ => none
  | (k, v) :: d, i => if k = i then some v else dictGet d i

/-- Python dict insertion d[k] = v: replace in place when the key exists,
else append. -/
def dictInsert : List (ℤ × String) → ℤ → String → List (ℤ × String)
  | [], i, v => [(i, v)]
  | (k, w) :: d, i, v =>
      if k = i then (i, v) :: d else (k, w) :: dictInsert d i v

/-- The dict comprehension \x7bint(k): v for k, v in labels_data.items()\x7d:
items are inserted in iteration order; the first key whose int() fails
raises, and a duplicated integer key silently overwrites. -/
def buildLabelsMap : List (String × String) → List (ℤ × String) →
    Except PyError (List (ℤ × String))
  | [], acc => .ok acc
  | (k, v) :: rest, acc =>
      match pyInt k with
      | .error e => .error e
      | .ok i => buildLabelsMap rest (dictInsert acc i v)

/-- load_labels: every failure is logged and re-raised unchanged. -/
def load_labels (file : LabelsFile) : Except PyError (List (ℤ × String)) :=
  match file with
  | .missing =>
      .error (.fileNotFoundError "No such file or directory: labels.json")
  | .invalidJson msg => .error (.jsonDecodeError msg)
  | .nonObject =>
      .error (.attributeError "object has no attribute items")
  | .object entries => buildLabelsMap entries []

/-! ## Model loading (inference.py build_model / load_model) -/

/-- A checkpoint as the service consumes it: the classification-head width
stored in model_state_dict, and the score function the loaded weights
denote (length head_width for every input). -/
structure Checkpoint (R : Type) where
  head_width : Nat
  score : Tensor → List R
  score_len : ∀ t, (score t).length = head_width

/-- What torch.load finds at the model path. -/
inductive ModelFile (R : Type)
  | missing
  | checkpoint (c : Checkpoint R)

/-- A loaded model in eval mode. -/
structure NNModel (R : Type) where
  num_classes : Nat
  score : Tensor → List R
  score_len : ∀ t, (score t).length = num_classes

/-- The message of the RuntimeError torch raises on a state-dict shape
mismatch. -/
def sizeMismatchMsg : String :=
  "Error(s) in loading state_dict for EfficientNet: size mismatch for classifier.1.weight"

/-- load_model: build_model(num_classes) constructs a head of width
num_classes, then load_state_dict on the model_state_dict entry of the
checkpoint compares stored parameter shapes and raises RuntimeError on a
mismatch (torch's strict state-dict check); load_model itself performs no
shape check and re-raises every failure unchanged. -/
def load_model {R : Type} (file : ModelFile R) (num_classes : Nat) :
    Except PyError (NNModel R) :=
  match file with
  | .missing =>
      .error (.fileNotFoundError "No such file or directory: model.pth")
  | .checkpoint c =>
      if h : c.head_width = num_classes then
        .ok { num_classes := num_classes, score := c.score,
              score_len := fun t => h ▸ c.score_len t }
      else
        .error (.runtimeError sizeMismatchMsg)

/-! ## Service state and startup (inference.py lifespan) -/

/-- The three module-level globals; none is set before startup. -/
structure ServiceState (R : Type) where
  model : Option (NNModel R)
  labels_map : Option (List (ℤ × String))
  preprocessor : Option ImagePreprocessor

/-- The state before initialization begins. -/
def initialState (R : Type) : ServiceState R := ⟨none, none, none⟩

/-- The startup half of lifespan: load labels, load the model with
num_classes = len(labels_map), construct the preprocessor with
Config.IMG_SIZE = 224; any failure propagates and the service never
becomes ready. -/
def lifespan_startup {R : Type} (lf : LabelsFile) (mf : ModelFile R) :
    Except PyError (ServiceState R) :=
  match load_labels lf with
  | .error e => .error e
  | .ok lm =>
      match load_model mf lm.length with
      | .error e => .error e
      | .ok m => .ok ⟨some m, some lm, some ⟨224⟩⟩

/-! ## Inference (inference.py predict and the infer endpoint)

Float arithmetic is idealised over a linear ordered field R; the theorems
instantiate R := ℝ and the exponential with Real.exp. -/

section Inference

variable {R : Type} [LinearOrderedField R] [FloorRing R]

/-- torch.nn.functional.softmax along the class dimension. -/
def softmax (pyexp : R → R) (xs : List R) : List R :=
  xs.map fun x => pyexp x / (xs.map pyexp).sum

/-- Values paired with their positions, starting at i. -/
def withIdx {α : Type} : Nat → List α → List (Nat × α)
  | _, [] => []
  | i, x :: xs => (i, x) :: withIdx (i + 1) xs

/-- The ranking torch.topk sorts by: strictly larger value first, equal
values broken by the smaller index (the deterministic tie order the spec
fixes for the CPU kernel). -/
def rankLt (a b : Nat × R) : Prop :=
  b.2 < a.2 ∨ (a.2 = b.2 ∧ a.1 < b.1)

instance instDecRankLt (a b : Nat × R) : Decidable (rankLt a b) := by
  unfold rankLt
  infer_instance

/-- Insert into a rank-sorted list. -/
def insertRanked (a : Nat × R) : List (Nat × R) → List (Nat × R)
  | [] => [a]
  | b :: l => if rankLt a b then a :: b :: l else b :: insertRanked a l

/-- Sort index-value pairs by rank (best first). -/
def sortRanked : List (Nat × R) → List (Nat × R)
  | [] => []
  | a :: l => insertRanked a (sortRanked l)

/-- torch.topk(values, k): the k best (index, value) pairs, best first.
Total by truncation; every claim calls it with k at most the length. -/
def topk (xs : List R) (k : Nat) : List (Nat × R) :=
  (sortRanked (withIdx 0 xs)).take k

/-- Python round to an integer: nearest, ties to even. -/
def pyRoundHalfEven (x : R) : ℤ :=
  let f := ⌊x⌋
  if x - f < 1 / 2 then f
  else if 1 / 2 < x - f then f + 1
  else if Even f then f else f + 1

/-- Python round(x, 4). -/
def pyRound4 (x : R) : R :=
  (pyRoundHalfEven (x * 10000) : R) / 10000

/-- One entry of the response: Prediction(label, confidence). -/
structure Prediction (R : Type) where
  label : String
  confidence : R
deriving DecidableEq

/-- What escapes predict: the bare RuntimeError raised before the try
block, or an HTTPException with a status code and a detail string. -/
inductive ServiceError
  | runtimeError (msg : String)
  | httpException (status_code : Nat) (detail : String)
deriving DecidableEq

/-- The formatting loop of predict: for each selected pair look the index
up in labels_map (a missing key raises KeyError, which the enclosing
except turns into a 500 with the stringified exception) and append the
label with the confidence rounded to 4 places. -/
def formatPredictions (labels_map : List (ℤ × String)) :
    List (Nat × R) → Except ServiceError (List (Prediction R))
  | [] => .ok []
  | (idx, prob) :: rest =>
      match dictGet labels_map (idx : ℤ) with
      | none =>
          .error (.httpException 500
            ("Inference error: " ++ toString (idx : ℤ)))
      | some lab =>
          match formatPredictions labels_map rest with
          | .error e => .error e
          | .ok ps => .ok ({ label := lab, confidence := pyRound4 prob } :: ps)

/-- predict(image_path, top_k): reject when any global is unset; else
preprocess (FileNotFoundError becomes a 404 whose detail restates the
path, any other failure becomes a 500 with the stringified exception),
score, softmax, select min(top_k, len(labels_map)) and format. -/
def predict (pyexp : R → R) (fs : FileSys) (st : ServiceState R)
    (image_path : String) (top_k : Nat) :
    Except ServiceError (List (Prediction R)) :=
  match st.model, st.labels_map, st.preprocessor with
  | some model, some labels_map, some preprocessor =>
      match preprocessor.preprocess_from_path fs image_path with
      | .error (.fileNotFoundError _) =>
          .error (.httpException 404
            ("Image file not found: " ++ image_path))
      | .error e =>
          .error (.httpException 500 ("Inference error: " ++ e.str))
      | .ok input_tensor =>
          let outputs := model.score input_tensor
          let probabilities := softmax pyexp outputs
          formatPredictions labels_map
            (topk probabilities (min top_k labels_map.length))
  | _, _, _ =>
      .error (.runtimeError "Model not loaded. Service not initialized properly.")

/-- The caller-visible outcome of POST /infer: either the response body or
an HTTP status code with a detail string. -/
def infer (pyexp : R → R) (fs : FileSys) (st : ServiceState R)
    (image_path : String) (TOP_K : Nat) :
    Except (Nat × String) (List (Prediction R)) :=
  match predict pyexp fs st image_path TOP_K with
  | .error (.httpException s d) => .error (s, d)
  | .error (.runtimeError m) => .error (500, m)
  | .ok predictions =>
      match predictions with
      | [] => .error (500, "list index out of range")
      | p :: ps => .ok (p :: ps)

end Inference

/-! ## Concrete sample data used by witnesses -/

/-- A 2×2 grayscale sample image. -/
def sampleGray : PILImage :=
  { mode := .L, height := 2, width := 2, px := fun _ _ => .gray 7 }

/-- A 1×1 RGB sample image. -/
def sampleRGB : PILImage :=
  { mode := .RGB, height := 1, width := 1, px := fun _ _ => .rgb 1 2 3 }

/-- A filesystem with one decodable grayscale image. -/
def sampleFS : FileSys := fun _ => .image sampleGray

/-- A filesystem whose files exist but cannot be decoded. -/
def undecodableFS : FileSys := fun _ => .undecodable "cannot identify image file"

/-- A filesystem on which some paths are missing and the rest undecodable. -/
def mixedFS : FileSys := fun p =>
  if p = "missing.png" then .missing
  else .undecodable "cannot identify image file"

/-- A checkpoint whose classification head has width 2. -/
def sampleCheckpoint : Checkpoint ℝ :=
  { head_width := 2, score := fun _ => [0, 0], score_len := fun _ => rfl }

/-- A loaded single-class model scoring every input as [0]. -/
def sampleModel : NNModel ℝ :=
  { num_classes := 1, score := fun _ => [0], score_len := fun _ => rfl }

/-- A fully initialized service state with one class. -/
def readyState : ServiceState ℝ :=
  ⟨some sampleModel, some [(0, "echeveria_elegans")], some ⟨224⟩⟩

/-- A fully initialized state whose label table lacks the key 0 (its only
key is 5), so formatting raises KeyError: an internal failure. -/
def badLabelsState : ServiceState ℝ :=
  ⟨some sampleModel, some [(5, "echeveria_elegans")], some ⟨224⟩⟩

/-- A fully initialized state whose label table is empty. -/
def emptyLabelsState : ServiceState ℝ :=
  ⟨some sampleModel, some [], some ⟨224⟩⟩

/-- A labels file with three well-formed entries. -/
def threeLabelsFile : LabelsFile :=
  .object [("0", "echeveria_elegans"), ("1", "haworthia_fasciata"),
    ("2", "sedum_morganianum")]

/-- The label table of the spec's example scenario. -/
def exampleLabels : List (ℤ × String) :=
  [(0, "echeveria_elegans"), (1, "haworthia_fasciata"),
    (2, "sedum_morganianum")]

/-- A model producing the example scenario's raw scores [2.0, 5.0, 0.1]. -/
def exampleModel : NNModel ℝ :=
  { num_classes := 3, score := fun _ => [2, 5, 0.1],
    score_len := fun _ => rfl }

/-- The ready service state of the example scenario. -/
def exampleState : ServiceState ℝ :=
  ⟨some exampleModel, some exampleLabels, some ⟨224⟩⟩

/-! ## Preprocessing lemmas -/

/-- After the conditional conversion the image is in RGB mode. -/
theorem ensureRGB_mode (im : PILImage) : im.ensureRGB.mode = .RGB := by
  unfold PILImage.ensureRGB
  by_cases h : im.mode = .RGB
  · rw [if_pos h]
    exact h
  · rw [if_neg h]
    rfl

/-- The conditional conversion is skipped on an image already in RGB. -/
theorem ensureRGB_noop (im : PILImage) (h : im.mode = .RGB) :
    im.ensureRGB = im := by
  unfold PILImage.ensureRGB
  rw [if_pos h]

/-- The conditional conversion is idempotent. -/
theorem ensureRGB_idem (im : PILImage) :
    im.ensureRGB.ensureRGB = im.ensureRGB :=
  ensureRGB_noop im.ensureRGB (ensureRGB_mode im)

/-- C8: Preprocessing is a pure deterministic function of the input bytes:
the same decoded input always yields an identical preprocessed tensor, and
the three-channel color conversion is idempotent; applying it to an image
that is already three-channel RGB is a no-op. -/
theorem preprocess_deterministic_and_rgb_conversion_idempotent :
    (∀ (p : ImagePreprocessor) (fs fs₂ : FileSys) (path path₂ : String)
      (im : PILImage), fs path = .image im → fs₂ path₂ = .image im →
      p.preprocess_from_path fs path = p.preprocess_from_path fs₂ path₂) ∧
    (∀ im : PILImage, im.mode = .RGB → im.ensureRGB = im) ∧
    (∀ im : PILImage, im.ensureRGB.ensureRGB = im.ensureRGB) := by
  refine ⟨?_, ensureRGB_noop, ensureRGB_idem⟩
  intro p fs fs₂ path path₂ im h h₂
  unfold ImagePreprocessor.preprocess_from_path ImagePreprocessor.load_image
  rw [h, h₂]

/-- Witness for C8 at concrete images. -/
theorem preprocess_deterministic_and_rgb_conversion_idempotent_witness :
    (ImagePreprocessor.mk 224).preprocess_from_path sampleFS "a.png" =
      (ImagePreprocessor.mk 224).preprocess_from_path sampleFS "b.png" ∧
    sampleRGB.ensureRGB = sampleRGB ∧
    sampleGray.ensureRGB.ensureRGB = sampleGray.ensureRGB :=
  ⟨preprocess_deterministic_and_rgb_conversion_idempotent.1
      (ImagePreprocessor.mk 224) sampleFS sampleFS "a.png" "b.png"
      sampleGray rfl rfl,
    preprocess_deterministic_and_rgb_conversion_idempotent.2.1 sampleRGB rfl,
    preprocess_deterministic_and_rgb_conversion_idempotent.2.2 sampleGray⟩

/-- C9: for every decodable image, of any source resolution, aspect ratio
and channel count, the preprocessor used by the service (img_size 224)
produces a tensor of shape batch 1 × 3 channels × 224 × 224. -/
theorem preprocess_output_shape (fs : FileSys) (path : String)
    (im : PILImage) (h : fs path = .image im) :
    ∃ t : Tensor,
      (ImagePreprocessor.mk 224).preprocess_from_path fs path = .ok t ∧
      t.shape = [1, 3, 224, 224] := by
  refine ⟨(ImagePreprocessor.mk 224).preprocess im.ensureRGB, ?_, ?_⟩
  · unfold ImagePreprocessor.preprocess_from_path ImagePreprocessor.load_image
    rw [h]
  · show 1 :: [im.ensureRGB.mode.channels, 224, 224] = [1, 3, 224, 224]
    rw [ensureRGB_mode im]
    rfl

/-- Witness for C9 at a concrete grayscale image. -/
theorem preprocess_output_shape_witness :
    ∃ t : Tensor,
      (ImagePreprocessor.mk 224).preprocess_from_path sampleFS "a.png" =
        .ok t ∧
      t.shape = [1, 3, 224, 224] :=
  preprocess_output_shape sampleFS "a.png" sampleGray rfl

/-! ## Label table lemmas (C7) -/

/-- Every failure of pyInt is a ValueError. -/
theorem pyInt_error_valueError (s : String) (e : PyError)
    (h : pyInt s = .error e) : ∃ m, e = .valueError m := by
  simp only [pyInt] at h
  split at h
  · split at h
    · exact absurd h (by simp)
    · exact ⟨_, (by injection h with h2; exact h2.symm)⟩
  · split at h
    · exact absurd h (by simp)
    · exact ⟨_, (by injection h with h2; exact h2.symm)⟩
  · split at h
    · exact absurd h (by simp)
    · exact ⟨_, (by injection h with h2; exact h2.symm)⟩

/-- Any error escaping the labels dict comprehension is a pyInt error. -/
theorem buildLabelsMap_error_valueError :
    ∀ (entries : List (String × String)) (acc : List (ℤ × String))
      (e : PyError), buildLabelsMap entries acc = .error e →
      ∃ m, e = .valueError m := by
  intro entries
  induction entries with
  | nil =>
      intro acc e h
      exact absurd h (by simp [buildLabelsMap])
  | cons kv rest ih =>
      intro acc e h
      obtain ⟨k, v⟩ := kv
      unfold buildLabelsMap at h
      cases hp : pyInt k with
      | error e₂ =>
          rw [hp] at h
          injection h with h₂
          exact h₂ ▸ pyInt_error_valueError k e₂ hp
      | ok i =>
          rw [hp] at h
          exact ih _ e h

/-- The keys of dictInsert are the inserted key and the old keys. -/
theorem mem_map_fst_dictInsert (d : List (ℤ × String)) (i : ℤ) (v : String)
    (j : ℤ) (h : j ∈ (dictInsert d i v).map Prod.fst) :
    j = i ∨ j ∈ d.map Prod.fst := by
  induction d with
  | nil =>
      simp [dictInsert] at h
      exact Or.inl h
  | cons kw d ih =>
      obtain ⟨k, w⟩ := kw
      unfold dictInsert at h
      rw [List.map_cons]
      by_cases hk : k = i
      · rw [if_pos hk, List.map_cons] at h
        rcases List.mem_cons.1 h with h₁ | h₁
        · exact Or.inl h₁
        · exact Or.inr (List.mem_cons.2 (Or.inr h₁))
      · rw [if_neg hk, List.map_cons] at h
        rcases List.mem_cons.1 h with h₁ | h₁
        · exact Or.inr (List.mem_cons.2 (Or.inl h₁))
        · rcases ih h₁ with h₂ | h₂
          · exact Or.inl h₂
          · exact Or.inr (List.mem_cons.2 (Or.inr h₂))

/-- Python dict insertion keeps keys without duplicates. -/
theorem dictInsert_keys_nodup (d : List (ℤ × String)) (i : ℤ) (v : String)
    (h : (d.map Prod.fst).Nodup) :
    ((dictInsert d i v).map Prod.fst).Nodup := by
  induction d with
  | nil => simp [dictInsert]
  | cons kw d ih =>
      obtain ⟨k, w⟩ := kw
      rw [List.map_cons, List.nodup_cons] at h
      unfold dictInsert
      by_cases hk : k = i
      · rw [if_pos hk, List.map_cons, List.nodup_cons]
        subst hk
        exact ⟨h.1, h.2⟩
      · rw [if_neg hk, List.map_cons, List.nodup_cons]
        refine ⟨?_, ih h.2⟩
        intro hmem
        rcases mem_map_fst_dictInsert d i v k hmem with h₁ | h₁
        · exact hk h₁
        · exact h.1 h₁

/-- When every key parses, the comprehension succeeds and produces a dict
with pairwise distinct integer keys. -/
theorem buildLabelsMap_ok :
    ∀ (entries : List (String × String)) (acc : List (ℤ × String)),
      (∀ kv ∈ entries, ∃ i, pyInt kv.1 = .ok i) →
      (acc.map Prod.fst).Nodup →
      ∃ d, buildLabelsMap entries acc = .ok d ∧ (d.map Prod.fst).Nodup := by
  intro entries
  induction entries with
  | nil =>
      intro acc _ hacc
      exact ⟨acc, rfl, hacc⟩
  | cons kv rest ih =>
      intro acc hall hacc
      obtain ⟨k, v⟩ := kv
      obtain ⟨i, hi⟩ := hall (k, v) (by simp)
      have hrest : ∀ kv ∈ rest, ∃ j, pyInt kv.1 = .ok j := by
        intro kv hkv
        exact hall kv (by simp [hkv])
      obtain ⟨d, hd, hnd⟩ :=
        ih (dictInsert acc i v) hrest (dictInsert_keys_nodup acc i v hacc)
      refine ⟨d, ?_, hnd⟩
      unfold buildLabelsMap
      rw [hi]
      exact hd

/-- When some key fails to parse, the comprehension raises. -/
theorem buildLabelsMap_error_of_badKey :
    ∀ (entries : List (String × String)) (acc : List (ℤ × String)),
      (∃ kv ∈ entries, ∃ e₀, pyInt kv.1 = .error e₀) →
      ∃ e, buildLabelsMap entries acc = .error e := by
  intro entries
  induction entries with
  | nil =>
      intro acc h
      simp at h
  | cons kv rest ih =>
      intro acc h
      obtain ⟨k, v⟩ := kv
      cases hp : pyInt k with
      | error e₂ =>
          refine ⟨e₂, ?_⟩
          unfold buildLabelsMap
          rw [hp]
      | ok i =>
          obtain ⟨kv₂, hmem, e₀, he₀⟩ := h
          have hkv₂ : kv₂ ∈ rest := by
            rcases List.mem_cons.1 hmem with h₂ | h₂
            · exfalso
              rw [h₂] at he₀
              rw [hp] at he₀
              exact absurd he₀ (by simp)
            · exact h₂
          obtain ⟨e, he⟩ := ih (dictInsert acc i v) ⟨kv₂, hkv₂, e₀, he₀⟩
          refine ⟨e, ?_⟩
          unfold buildLabelsMap
          rw [hp]
          exact he

/-- C7 counterexample: two textually distinct keys denoting the same index
do not make load_labels fail; the later entry silently overwrites the
earlier one. -/
theorem load_labels_duplicate_indices_succeed :
    load_labels (.object
      [("0", "echeveria_elegans"), ("00", "haworthia_fasciata")]) =
      .ok [(0, "haworthia_fasciata")] := rfl

/-- C7 amended: load_labels fails by propagating FileNotFoundError,
JSONDecodeError, AttributeError or ValueError (never a ConfigError, which
the code does not define) when the file is missing, the JSON is malformed,
the top-level value is not an object, or some key is non-integer; when
every key parses it yields an integer-keyed mapping with pairwise distinct
keys usable for lookup.  Duplicate indices do not fail (see the
counterexample). -/
theorem load_labels_failure_modes :
    (load_labels .missing =
      .error (.fileNotFoundError "No such file or directory: labels.json")) ∧
    (∀ m, load_labels (.invalidJson m) = .error (.jsonDecodeError m)) ∧
    (load_labels .nonObject =
      .error (.attributeError "object has no attribute items")) ∧
    (∀ entries, (∃ kv ∈ entries, ∃ e₀, pyInt kv.1 = .error e₀) →
      ∃ e, load_labels (.object entries) = .error e) ∧
    (∀ entries, (∀ kv ∈ entries, ∃ i, pyInt kv.1 = .ok i) →
      ∃ d, load_labels (.object entries) = .ok d ∧
        (d.map Prod.fst).Nodup) ∧
    (∀ f e, load_labels f = .error e → e.isConfigError = false) := by
  refine ⟨rfl, fun m => rfl, rfl, ?_, ?_, ?_⟩
  · intro entries h
    exact buildLabelsMap_error_of_badKey entries [] h
  · intro entries h
    exact buildLabelsMap_ok entries [] h (by simp)
  · intro f e he
    cases f with
    | missing =>
        injection he with h₂
        rw [← h₂]
        rfl
    | invalidJson m =>
        injection he with h₂
        rw [← h₂]
        rfl
    | nonObject =>
        injection he with h₂
        rw [← h₂]
        rfl
    | object entries =>
        obtain ⟨m, hm⟩ := buildLabelsMap_error_valueError entries [] e he
        rw [hm]
        rfl

/-- Witness for C7 at concrete label files. -/
theorem load_labels_failure_modes_witness :
    (∃ e, load_labels (.object [("x", "echeveria_elegans")]) = .error e) ∧
    (∃ d, load_labels (.object [("0", "echeveria_elegans")]) = .ok d ∧
      (d.map Prod.fst).Nodup) ∧
    (load_labels (.invalidJson "Expecting value: line 1 column 1") =
      .error (.jsonDecodeError "Expecting value: line 1 column 1")) :=
  ⟨load_labels_failure_modes.2.2.2.1 [("x", "echeveria_elegans")]
      ⟨("x", "echeveria_elegans"), by simp, by exact ⟨_, rfl⟩⟩,
    load_labels_failure_modes.2.2.2.2.1 [("0", "echeveria_elegans")]
      (by intro kv hkv; simp at hkv; rw [hkv]; exact ⟨0, rfl⟩),
    load_labels_failure_modes.2.1 "Expecting value: line 1 column 1"⟩

/-! ## Model loading and startup (C3) -/

/-- C3 counterexample: with a 2-wide checkpoint head and 3 labels,
load_model fails, but with the RuntimeError propagated from the state-dict
load, not with a ConfigError (the code defines no such class and performs
no shape check of its own); startup fails with the same propagated
error. -/
theorem load_model_mismatch_not_configError :
    load_model (.checkpoint sampleCheckpoint) 3 =
      .error (.runtimeError sizeMismatchMsg) ∧
    (PyError.runtimeError sizeMismatchMsg).isConfigError = false ∧
    lifespan_startup threeLabelsFile (.checkpoint sampleCheckpoint) =
      .error (.runtimeError sizeMismatchMsg) := by
  refine ⟨rfl, rfl, rfl⟩

/-- C3 amended: when the label count disagrees with the checkpoint head
width, load_model fails (with the propagated RuntimeError) and startup
never produces a ready service state. -/
theorem mismatched_checkpoint_never_ready (lf : LabelsFile)
    (lm : List (ℤ × String)) (c : Checkpoint ℝ)
    (hl : load_labels lf = .ok lm) (hw : c.head_width ≠ lm.length) :
    load_model (.checkpoint c) lm.length =
      .error (.runtimeError sizeMismatchMsg) ∧
    lifespan_startup lf (.checkpoint c) =
      .error (.runtimeError sizeMismatchMsg) := by
  have h₁ : load_model (.checkpoint c) lm.length =
      .error (.runtimeError sizeMismatchMsg) := by
    simp only [load_model]
    rw [dif_neg hw]
  refine ⟨h₁, ?_⟩
  simp only [lifespan_startup, hl, h₁]

/-- Witness for C3 at a concrete mismatched checkpoint. -/
theorem mismatched_checkpoint_never_ready_witness :
    load_model (.checkpoint sampleCheckpoint)
      (List.length [((0 : ℤ), "echeveria_elegans"),
        (1, "haworthia_fasciata"), (2, "sedum_morganianum")]) =
      .error (.runtimeError sizeMismatchMsg) ∧
    lifespan_startup threeLabelsFile (.checkpoint sampleCheckpoint) =
      .error (.runtimeError sizeMismatchMsg) :=
  mismatched_checkpoint_never_ready threeLabelsFile
    [(0, "echeveria_elegans"), (1, "haworthia_fasciata"),
      (2, "sedum_morganianum")] sampleCheckpoint rfl (by decide)

/-! ## Uninitialized service (C6) -/

/-- C6: while any of the three globals is still unset, predict raises
RuntimeError and the endpoint answers a 500 error; no prediction list (in
particular no null or default one) is ever returned. -/
theorem uninitialized_requests_rejected (st : ServiceState ℝ) (fs : FileSys)
    (path : String) (k : Nat)
    (h : st.model = none ∨ st.labels_map = none ∨ st.preprocessor = none) :
    predict Real.exp fs st path k =
      .error (.runtimeError
        "Model not loaded. Service not initialized properly.") ∧
    infer Real.exp fs st path k =
      .error (500, "Model not loaded. Service not initialized properly.") := by
  obtain ⟨m, l, p⟩ := st
  have hp : predict Real.exp fs ⟨m, l, p⟩ path k =
      .error (.runtimeError
        "Model not loaded. Service not initialized properly.") := by
    cases m with
    | none => rfl
    | some m =>
        cases l with
        | none => rfl
        | some l =>
            cases p with
            | none => rfl
            | some p => simp at h
  refine ⟨hp, ?_⟩
  unfold infer
  rw [hp]

/-- Witness for C6 at the state before startup. -/
theorem uninitialized_requests_rejected_witness :
    predict Real.exp sampleFS (initialState ℝ) "a.png" 3 =
      .error (.runtimeError
        "Model not loaded. Service not initialized properly.") ∧
    infer Real.exp sampleFS (initialState ℝ) "a.png" 3 =
      .error (500, "Model not loaded. Service not initialized properly.") :=
  uninitialized_requests_rejected (initialState ℝ) sampleFS "a.png" 3
    (Or.inl rfl)

/-! ## Per-request error translation (C4, C5) -/

/-- C4 counterexample: undecodable bytes and an internal failure (here a
KeyError while mapping indices to labels) both surface as HTTP 500 with a
free-form detail; the caller-visible error category does not distinguish
invalid input from an internal error. -/
theorem undecodable_same_category_as_internal :
    predict Real.exp undecodableFS readyState "img.png" 3 =
      .error (.httpException 500
        "Inference error: Error loading image img.png: cannot identify image file") ∧
    predict Real.exp sampleFS badLabelsState "img.png" 3 =
      .error (.httpException 500 "Inference error: 0") := by
  exact ⟨rfl, rfl⟩

/-- C4 amended: a nonexistent path yields a 404 not-found error, which is
distinguishable from every other failure and never an internal 500;
undecodable bytes yield a 500 whose detail wraps the decode message — the
same status code as an internal error, so the invalid-input case is
distinguishable only by its free-form detail text, not by a structured
category. -/
theorem notfound_distinguishable_undecodable_not (m : NNModel ℝ)
    (lm : List (ℤ × String)) (pre : ImagePreprocessor) (fs : FileSys)
    (p₁ p₂ msg : String) (k : Nat)
    (h₁ : fs p₁ = .missing) (h₂ : fs p₂ = .undecodable msg) :
    predict Real.exp fs ⟨some m, some lm, some pre⟩ p₁ k =
      .error (.httpException 404 ("Image file not found: " ++ p₁)) ∧
    predict Real.exp fs ⟨some m, some lm, some pre⟩ p₂ k =
      .error (.httpException 500
        ("Inference error: " ++
          ("Error loading image " ++ p₂ ++ ": " ++ msg))) ∧
    (404 : Nat) ≠ 500 := by
  refine ⟨?_, ?_, by decide⟩
  · simp only [predict, ImagePreprocessor.preprocess_from_path,
      ImagePreprocessor.load_image, h₁]
  · simp only [predict, ImagePreprocessor.preprocess_from_path,
      ImagePreprocessor.load_image, h₂]
    rfl

/-- Witness for C4 on a filesystem with a missing and an undecodable
path. -/
theorem notfound_distinguishable_undecodable_not_witness :
    predict Real.exp mixedFS
      ⟨some sampleModel, some [(0, "echeveria_elegans")], some ⟨224⟩⟩
      "missing.png" 3 =
      .error (.httpException 404 ("Image file not found: " ++ "missing.png")) ∧
    predict Real.exp mixedFS
      ⟨some sampleModel, some [(0, "echeveria_elegans")], some ⟨224⟩⟩
      "corrupt.png" 3 =
      .error (.httpException 500
        ("Inference error: " ++
          ("Error loading image " ++ "corrupt.png" ++ ": " ++
            "cannot identify image file"))) ∧
    (404 : Nat) ≠ 500 :=
  notfound_distinguishable_undecodable_not sampleModel
    [(0, "echeveria_elegans")] ⟨224⟩ mixedFS "missing.png" "corrupt.png"
    "cannot identify image file" 3 rfl rfl

/-- C5 counterexample: the caller-visible failure of the infer endpoint
carries the raw stringified exception — the detail embeds both the decode
exception text and the request path verbatim, not only a structured
category. -/
theorem error_detail_exposes_raw_strings :
    infer Real.exp undecodableFS readyState "img.png" 3 =
      .error (500,
        "Inference error: Error loading image img.png: cannot identify image file") ∧
    (∃ a b : String,
      "Inference error: Error loading image img.png: cannot identify image file" =
        a ++ "cannot identify image file" ++ b) ∧
    (∃ a b : String,
      "Inference error: Error loading image img.png: cannot identify image file" =
        a ++ "img.png" ++ b) := by
  refine ⟨rfl, ⟨"Inference error: Error loading image img.png: ", "", ?_⟩,
    ⟨"Inference error: Error loading image ",
      ": cannot identify image file", ?_⟩⟩ <;> rfl

/-- C5 amended: every failing preprocessing request — a nonexistent path
as much as undecodable bytes — is answered with a status code plus a
free-form detail string that embeds the raw stringified exception str(e)
and the image path, rather than only a structured error category (stack
traces are not part of the response). -/
theorem error_detail_embeds_exception (m : NNModel ℝ)
    (lm : List (ℤ × String)) (pre : ImagePreprocessor) (fs : FileSys)
    (path : String) (k : Nat) (e : PyError)
    (h : pre.preprocess_from_path fs path = .error e) :
    ∃ status : Nat, ∃ detail : String,
      infer Real.exp fs ⟨some m, some lm, some pre⟩ path k =
        .error (status, detail) ∧
      (∃ a b : String, detail = a ++ e.str ++ b) ∧
      (∃ a b : String, detail = a ++ path ++ b) := by
  cases hfs : fs path with
  | missing =>
      have he : e = .fileNotFoundError ("Image file not found: " ++ path) := by
        simp only [ImagePreprocessor.preprocess_from_path,
          ImagePreprocessor.load_image, hfs] at h
        injection h with h₂
        exact h₂.symm
      refine ⟨404, "Image file not found: " ++ path, ?_, ?_, ?_⟩
      · simp only [infer, predict, ImagePreprocessor.preprocess_from_path,
          ImagePreprocessor.load_image, hfs]
      · exact ⟨"", "", by rw [he]; simp [PyError.str]⟩
      · exact ⟨"Image file not found: ", "", by simp⟩
  | undecodable msg =>
      have he : e =
          .ioError ("Error loading image " ++ path ++ ": " ++ msg) := by
        simp only [ImagePreprocessor.preprocess_from_path,
          ImagePreprocessor.load_image, hfs] at h
        injection h with h₂
        exact h₂.symm
      refine ⟨500,
        "Inference error: " ++
          ("Error loading image " ++ path ++ ": " ++ msg), ?_, ?_, ?_⟩
      · simp only [infer, predict, ImagePreprocessor.preprocess_from_path,
          ImagePreprocessor.load_image, hfs]
        rfl
      · exact ⟨"Inference error: ", "", by rw [he]; simp [PyError.str]⟩
      · refine ⟨"Inference error: " ++ "Error loading image ",
          ": " ++ msg, ?_⟩
        simp only [String.append_assoc]
  | image im =>
      simp only [ImagePreprocessor.preprocess_from_path,
        ImagePreprocessor.load_image, hfs] at h
      exact Except.noConfusion h

/-- Witness for C5 at a concrete missing path and a concrete undecodable
file. -/
theorem error_detail_embeds_exception_witness :
    (∃ status : Nat, ∃ detail : String,
      infer Real.exp mixedFS
        ⟨some sampleModel, some [(0, "echeveria_elegans")], some ⟨224⟩⟩
        "missing.png" 3 = .error (status, detail) ∧
      (∃ a b : String, detail =
        a ++ (PyError.fileNotFoundError
          ("Image file not found: " ++ "missing.png")).str ++ b) ∧
      (∃ a b : String, detail = a ++ "missing.png" ++ b)) ∧
    (∃ status : Nat, ∃ detail : String,
      infer Real.exp mixedFS
        ⟨some sampleModel, some [(0, "echeveria_elegans")], some ⟨224⟩⟩
        "corrupt.png" 3 = .error (status, detail) ∧
      (∃ a b : String, detail =
        a ++ (PyError.ioError ("Error loading image " ++ "corrupt.png" ++
          ": " ++ "cannot identify image file")).str ++ b) ∧
      (∃ a b : String, detail = a ++ "corrupt.png" ++ b)) :=
  ⟨error_detail_embeds_exception sampleModel [(0, "echeveria_elegans")]
      ⟨224⟩ mixedFS "missing.png" 3
      (.fileNotFoundError ("Image file not found: " ++ "missing.png")) rfl,
    error_detail_embeds_exception sampleModel [(0, "echeveria_elegans")]
      ⟨224⟩ mixedFS "corrupt.png" 3
      (.ioError ("Error loading image " ++ "corrupt.png" ++ ": " ++
        "cannot identify image file")) rfl⟩

/-! ## Empty label table (C10) -/

/-- C10: with an empty label table every selection is empty, and the
endpoint, which unconditionally reads the first prediction while logging,
fails with an internal 500 IndexError instead of returning an empty list;
in general every successful response holds at least one prediction. -/
theorem infer_empty_labels_internal_error (m : NNModel ℝ)
    (pre : ImagePreprocessor) (fs : FileSys) (path : String)
    (im : PILImage) (TOPK : Nat) (h : fs path = .image im) :
    infer Real.exp fs ⟨some m, some [], some pre⟩ path TOPK =
      .error (500, "list index out of range") ∧
    (∀ (st : ServiceState ℝ) (preds : List (Prediction ℝ)),
      infer Real.exp fs st path TOPK = .ok preds → 1 ≤ preds.length) := by
  constructor
  · have hp : predict Real.exp fs
        (⟨some m, some [], some pre⟩ : ServiceState ℝ) path TOPK = .ok [] := by
      simp only [predict, ImagePreprocessor.preprocess_from_path,
        ImagePreprocessor.load_image, h, List.length_nil, Nat.min_zero,
        topk, List.take_zero, formatPredictions]
    unfold infer
    rw [hp]
  · intro st preds h₂
    unfold infer at h₂
    cases hp : predict Real.exp fs st path TOPK with
    | error e =>
        rw [hp] at h₂
        cases e <;> exact absurd h₂ (by simp)
    | ok l =>
        rw [hp] at h₂
        cases l with
        | nil => exact absurd h₂ (by simp)
        | cons p ps =>
            injection h₂ with h₃
            rw [← h₃]
            simp

/-- Witness for C10 at the concrete empty-label state. -/
theorem infer_empty_labels_internal_error_witness :
    infer Real.exp sampleFS
      ⟨some sampleModel, some [], some ⟨224⟩⟩ "a.png" 3 =
      .error (500, "list index out of range") ∧
    (∀ (st : ServiceState ℝ) (preds : List (Prediction ℝ)),
      infer Real.exp sampleFS st "a.png" 3 = .ok preds →
      1 ≤ preds.length) :=
  infer_empty_labels_internal_error sampleModel ⟨224⟩ sampleFS "a.png"
    sampleGray 3 rfl

/-! ## Top-k selection lemmas (C1) -/

section SortLemmas

variable {R : Type} [LinearOrderedField R]

/-- The topk rank order is transitive. -/
theorem rankLt_trans (a b c : Nat × R) (h₁ : rankLt a b) (h₂ : rankLt b c) :
    rankLt a c := by
  rcases h₁ with h₁ | ⟨h₁e, h₁i⟩
  · rcases h₂ with h₂ | ⟨h₂e, h₂i⟩
    · exact Or.inl (lt_trans h₂ h₁)
    · exact Or.inl (h₂e ▸ h₁)
  · rcases h₂ with h₂ | ⟨h₂e, h₂i⟩
    · exact Or.inl (h₁e ▸ h₂)
    · exact Or.inr ⟨h₁e.trans h₂e, lt_trans h₁i h₂i⟩

/-- Pairs with distinct indices are comparable in the rank order. -/
theorem rankLt_total (a b : Nat × R) (h : a.1 ≠ b.1) :
    rankLt a b ∨ rankLt b a := by
  rcases lt_trichotomy a.2 b.2 with hv | hv | hv
  · exact Or.inr (Or.inl hv)
  · rcases Nat.lt_or_ge a.1 b.1 with hi | hi
    · exact Or.inl (Or.inr ⟨hv, hi⟩)
    · exact Or.inr (Or.inr ⟨hv.symm, lt_of_le_of_ne hi (fun e => h e.symm)⟩)
  · exact Or.inl (Or.inl hv)

/-- Ranked insertion permutes. -/
theorem insertRanked_perm (a : Nat × R) (l : List (Nat × R)) :
    List.Perm (insertRanked a l) (a :: l) := by
  induction l with
  | nil => exact List.Perm.refl _
  | cons b bs ih =>
      unfold insertRanked
      by_cases h : rankLt a b
      · rw [if_pos h]
      · rw [if_neg h]
        exact List.Perm.trans (List.Perm.cons b ih) (List.Perm.swap a b bs)

/-- The ranked sort permutes its input. -/
theorem sortRanked_perm (l : List (Nat × R)) :
    List.Perm (sortRanked l) l := by
  induction l with
  | nil => exact List.Perm.refl _
  | cons a bs ih =>
      exact List.Perm.trans (insertRanked_perm a (sortRanked bs))
        (List.Perm.cons a ih)

/-- Members of a ranked insertion. -/
theorem mem_insertRanked (a x : Nat × R) (l : List (Nat × R))
    (h : x ∈ insertRanked a l) : x = a ∨ x ∈ l :=
  List.mem_cons.1 ((insertRanked_perm a l).mem_iff.1 h)

/-- Ranked insertion preserves sortedness when the inserted index is
fresh. -/
theorem insertRanked_pairwise (a : Nat × R) (l : List (Nat × R))
    (hne : ∀ b ∈ l, a.1 ≠ b.1) (hl : l.Pairwise rankLt) :
    (insertRanked a l).Pairwise rankLt := by
  induction l with
  | nil => simp [insertRanked, rankLt]
  | cons b bs ih =>
      rw [List.pairwise_cons] at hl
      unfold insertRanked
      by_cases h : rankLt a b
      · rw [if_pos h]
        rw [List.pairwise_cons]
        refine ⟨?_, List.pairwise_cons.2 hl⟩
        intro c hc
        rcases List.mem_cons.1 hc with hc | hc
        · exact hc ▸ h
        · exact rankLt_trans a b c h (hl.1 c hc)
      · rw [if_neg h]
        rw [List.pairwise_cons]
        have hab : rankLt b a := by
          rcases rankLt_total a b (hne b (by simp)) with h₂ | h₂
          · exact absurd h₂ h
          · exact h₂
        refine ⟨?_, ih (fun c hc => hne c (by simp [hc])) hl.2⟩
        intro c hc
        rcases mem_insertRanked a c bs hc with hc | hc
        · exact hc ▸ hab
        · exact hl.1 c hc

/-- A list with pairwise distinct indices sorts to a strictly ranked
list. -/
theorem sortRanked_pairwise (l : List (Nat × R))
    (h : (l.map Prod.fst).Nodup) : (sortRanked l).Pairwise rankLt := by
  induction l with
  | nil => simp [sortRanked]
  | cons a bs ih =>
      rw [List.map_cons, List.nodup_cons] at h
      refine insertRanked_pairwise a (sortRanked bs) ?_ (ih h.2)
      intro b hb
      intro he
      exact h.1 (he ▸ List.mem_map_of_mem Prod.fst
        ((sortRanked_perm bs).mem_iff.1 hb))

/-- Indexing lemma: members of withIdx carry positions in range. -/
theorem mem_withIdx {α : Type} :
    ∀ (n : Nat) (xs : List α) (p : Nat × α), p ∈ withIdx n xs →
      n ≤ p.1 ∧ p.1 < n + xs.length := by
  intro n xs
  induction xs generalizing n with
  | nil => intro p h; simp [withIdx] at h
  | cons x xs ih =>
      intro p h
      rw [withIdx] at h
      rcases List.mem_cons.1 h with h | h
      · rw [h]
        simp
      · have := ih (n + 1) p h
        refine ⟨by omega, by simp; omega⟩

/-- The positions of withIdx are pairwise distinct. -/
theorem withIdx_map_fst_nodup {α : Type} :
    ∀ (n : Nat) (xs : List α), ((withIdx n xs).map Prod.fst).Nodup := by
  intro n xs
  induction xs generalizing n with
  | nil => simp [withIdx]
  | cons x xs ih =>
      rw [withIdx, List.map_cons, List.nodup_cons]
      refine ⟨?_, ih (n + 1)⟩
      intro h
      rcases List.mem_map.1 h with ⟨p, hp, hfst⟩
      have := (mem_withIdx (n + 1) xs p hp).1
      omega

/-- withIdx preserves length. -/
theorem withIdx_length {α : Type} :
    ∀ (n : Nat) (xs : List α), (withIdx n xs).length = xs.length := by
  intro n xs
  induction xs generalizing n with
  | nil => rfl
  | cons x xs ih => rw [withIdx, List.length_cons, ih, List.length_cons]

/-- topk returns min k n pairs. -/
theorem topk_length (xs : List R) (k : Nat) :
    (topk xs k).length = min k xs.length := by
  unfold topk
  rw [List.length_take, (sortRanked_perm (withIdx 0 xs)).length_eq,
    withIdx_length]

/-- topk output is strictly ranked. -/
theorem topk_pairwise (xs : List R) (k : Nat) :
    (topk xs k).Pairwise rankLt :=
  (sortRanked_pairwise (withIdx 0 xs) (withIdx_map_fst_nodup 0 xs)).sublist
    (List.take_sublist k _)

/-- topk positions are pairwise distinct. -/
theorem topk_fst_nodup (xs : List R) (k : Nat) :
    ((topk xs k).map Prod.fst).Nodup := by
  have hs : ((sortRanked (withIdx 0 xs)).map Prod.fst).Nodup :=
    ((sortRanked_perm (withIdx 0 xs)).map Prod.fst).nodup_iff.2
      (withIdx_map_fst_nodup 0 xs)
  exact hs.sublist ((List.take_sublist k _).map Prod.fst)

/-- topk positions index into the scored list. -/
theorem topk_mem_lt (xs : List R) (k : Nat) (p : Nat × R)
    (h : p ∈ topk xs k) : p.1 < xs.length := by
  have hmem : p ∈ withIdx 0 xs :=
    (sortRanked_perm (withIdx 0 xs)).mem_iff.1
      ((List.take_sublist k _).mem h)
  have := mem_withIdx 0 xs p hmem
  omega

/-- softmax preserves length. -/
theorem softmax_length (pyexp : R → R) (xs : List R) :
    (softmax pyexp xs).length = xs.length := by
  unfold softmax
  rw [List.length_map]

/-- dictGet only returns stored pairs. -/
theorem dictGet_some_mem :
    ∀ (d : List (ℤ × String)) (k : ℤ) (v : String),
      dictGet d k = some v → (k, v) ∈ d := by
  intro d
  induction d with
  | nil => intro k v h; exact absurd h (by simp [dictGet])
  | cons kw rest ih =>
      intro k v h
      obtain ⟨k₂, w⟩ := kw
      unfold dictGet at h
      by_cases hk : k₂ = k
      · rw [if_pos hk] at h
        injection h with h₂
        rw [hk, h₂]
        simp
      · rw [if_neg hk] at h
        exact List.mem_cons.2 (Or.inr (ih k v h))

/-- The formatting loop succeeds when every selected index resolves. -/
theorem formatPredictions_ok [FloorRing R] (lm : List (ℤ × String)) :
    ∀ sel : List (Nat × R),
      (∀ p ∈ sel, (dictGet lm (p.1 : ℤ)).isSome) →
      formatPredictions lm sel =
        .ok (sel.map fun p =>
          ⟨(dictGet lm (p.1 : ℤ)).getD "", pyRound4 p.2⟩) := by
  intro sel
  induction sel with
  | nil => intro _; rfl
  | cons p rest ih =>
      intro h
      obtain ⟨idx, prob⟩ := p
      obtain ⟨lab, hlab⟩ := Option.isSome_iff_exists.1 (h (idx, prob) (by simp))
      unfold formatPredictions
      rw [hlab, ih (fun q hq => h q (by simp [hq]))]
      rw [List.map_cons]
      show _ = Except.ok (⟨(dictGet lm (idx : ℤ)).getD "", pyRound4 prob⟩ :: _)
      rw [hlab]
      rfl

end SortLemmas

section RoundLemmas

variable {R : Type} [LinearOrderedField R] [FloorRing R]

/-- Half-even rounding is at least the floor. -/
theorem pyRoundHalfEven_ge_floor (x : R) : ⌊x⌋ ≤ pyRoundHalfEven x := by
  simp only [pyRoundHalfEven]
  split_ifs <;> omega

/-- Half-even rounding is at most the floor plus one. -/
theorem pyRoundHalfEven_le_floor_add_one (x : R) :
    pyRoundHalfEven x ≤ ⌊x⌋ + 1 := by
  simp only [pyRoundHalfEven]
  split_ifs <;> omega

/-- Half-even rounding is monotone. -/
theorem pyRoundHalfEven_mono (x y : R) (h : x ≤ y) :
    pyRoundHalfEven x ≤ pyRoundHalfEven y := by
  rcases lt_or_eq_of_le (Int.floor_mono h) with hf | hf
  · calc pyRoundHalfEven x ≤ ⌊x⌋ + 1 := pyRoundHalfEven_le_floor_add_one x
      _ ≤ ⌊y⌋ := by omega
      _ ≤ pyRoundHalfEven y := pyRoundHalfEven_ge_floor y
  · simp only [pyRoundHalfEven]
    rw [← hf]
    have hxy : x - ⌊x⌋ ≤ y - ⌊x⌋ := by linarith
    split_ifs <;> first | omega | linarith

/-- Python round(x, 4) is monotone. -/
theorem pyRound4_mono (x y : R) (h : x ≤ y) : pyRound4 x ≤ pyRound4 y := by
  unfold pyRound4
  have h₂ : pyRoundHalfEven (x * 10000) ≤ pyRoundHalfEven (y * 10000) :=
    pyRoundHalfEven_mono _ _ (by nlinarith)
  have h₃ : ((pyRoundHalfEven (x * 10000) : ℤ) : R) ≤
      ((pyRoundHalfEven (y * 10000) : ℤ) : R) := Int.cast_le.mpr h₂
  exact (div_le_div_iff_of_pos_right (by norm_num)).mpr h₃

end RoundLemmas

/-- C1: in a ready service state whose label table is a valid LabelTable
for the model (dense indices 0..N-1, unique labels, N = num_classes), a
successfully decoded request returns exactly the formatted top
min(top_k, N) selection: the list predict returns maps each selected index
through the label table with its confidence rounded to 4 decimal places,
has length min(top_k, N), is sorted strictly descending by softmax
confidence with ties broken by the lower class index, carries pairwise
distinct indices below N and pairwise distinct labels, and its rounded
confidences are descending. -/
theorem predict_topk_contract (m : NNModel ℝ) (lm : List (ℤ × String))
    (pre : ImagePreprocessor) (fs : FileSys) (path : String)
    (im : PILImage) (top_k : Nat) (him : fs path = .image im)
    (hN : m.num_classes = lm.length)
    (hdense : ∀ i : Nat, i < lm.length →
      ((dictGet lm (i : ℤ)).isSome = true))
    (hlabels : (lm.map Prod.snd).Nodup) (_htopk : 1 ≤ top_k) :
    ∃ sel : List (Nat × ℝ),
      sel = topk (softmax Real.exp
        (m.score (pre.preprocess im.ensureRGB))) (min top_k lm.length) ∧
      predict Real.exp fs ⟨some m, some lm, some pre⟩ path top_k =
        .ok (sel.map fun p =>
          ⟨(dictGet lm (p.1 : ℤ)).getD "", pyRound4 p.2⟩) ∧
      sel.length = min top_k lm.length ∧
      sel.Pairwise rankLt ∧
      (∀ p ∈ sel, p.1 < lm.length) ∧
      ((sel.map fun p => (dictGet lm (p.1 : ℤ)).getD "").Nodup) ∧
      ((sel.map fun p => pyRound4 p.2).Pairwise fun a b => b ≤ a) := by
  have hplen : (softmax Real.exp
      (m.score (pre.preprocess im.ensureRGB))).length = lm.length := by
    rw [softmax_length, m.score_len, hN]
  set probs := softmax Real.exp (m.score (pre.preprocess im.ensureRGB))
    with hprobs
  set sel := topk probs (min top_k lm.length) with hsel
  have hbound : ∀ p ∈ sel, p.1 < lm.length := by
    intro p hp
    have := topk_mem_lt probs (min top_k lm.length) p hp
    omega
  have hsome : ∀ p ∈ sel, ((dictGet lm ((p.1 : Nat) : ℤ)).isSome = true) :=
    fun p hp => hdense p.1 (hbound p hp)
  refine ⟨sel, rfl, ?_, ?_, topk_pairwise probs (min top_k lm.length),
    hbound, ?_, ?_⟩
  · simp only [predict, ImagePreprocessor.preprocess_from_path,
      ImagePreprocessor.load_image, him]
    exact formatPredictions_ok lm sel hsome
  · rw [hsel, topk_length, hplen, min_assoc, min_self]
  · refine List.Nodup.map_on ?_
      ((topk_fst_nodup probs (min top_k lm.length)).of_map Prod.fst)
    intro p hp q hq hpq
    obtain ⟨vi, hvi⟩ := Option.isSome_iff_exists.1 (hsome p hp)
    obtain ⟨vj, hvj⟩ := Option.isSome_iff_exists.1 (hsome q hq)
    rw [hvi, hvj] at hpq
    simp only [Option.getD_some] at hpq
    have hmi := dictGet_some_mem lm (p.1 : ℤ) vi hvi
    have hmj := dictGet_some_mem lm (q.1 : ℤ) vj hvj
    have hent := List.inj_on_of_nodup_map hlabels hmi hmj (by exact hpq)
    have hcast : ((p.1 : ℤ)) = (q.1 : ℤ) := congrArg Prod.fst hent
    have hfst : p.1 = q.1 := by exact_mod_cast hcast
    exact List.inj_on_of_nodup_map
      (topk_fst_nodup probs (min top_k lm.length)) hp hq hfst
  · refine List.Pairwise.map _ ?_
      (topk_pairwise probs (min top_k lm.length))
    intro a b hab
    rcases hab with hab | ⟨hab, _⟩
    · exact pyRound4_mono _ _ (le_of_lt hab)
    · rw [hab]

/-! ## The example scenario (C2): numeric bounds on the exponential -/

/-- Lower bound on exp 2 from the decimal bounds on e. -/
theorem exp_two_gt : (7.3890560980 : ℝ) < Real.exp 2 := by
  have h2 : Real.exp 2 = Real.exp 1 ^ 2 := by
    rw [← Real.exp_nat_mul]
    norm_num
  rw [h2]
  calc (7.3890560980 : ℝ) < 2.7182818283 ^ 2 := by norm_num
    _ < Real.exp 1 ^ 2 :=
        pow_lt_pow_left₀ Real.exp_one_gt_d9 (by norm_num) (by norm_num)

/-- Upper bound on exp 2. -/
theorem exp_two_lt : Real.exp 2 < 7.3890560999 := by
  have h2 : Real.exp 2 = Real.exp 1 ^ 2 := by
    rw [← Real.exp_nat_mul]
    norm_num
  rw [h2]
  calc Real.exp 1 ^ 2 < 2.7182818286 ^ 2 :=
        pow_lt_pow_left₀ Real.exp_one_lt_d9 (le_of_lt (Real.exp_pos 1))
          (by norm_num)
    _ < 7.3890560999 := by norm_num

/-- Lower bound on exp 5. -/
theorem exp_five_gt : (148.4131590 : ℝ) < Real.exp 5 := by
  have h5 : Real.exp 5 = Real.exp 1 ^ 5 := by
    rw [← Real.exp_nat_mul]
    norm_num
  rw [h5]
  calc (148.4131590 : ℝ) < 2.7182818283 ^ 5 := by norm_num
    _ < Real.exp 1 ^ 5 :=
        pow_lt_pow_left₀ Real.exp_one_gt_d9 (by norm_num) (by norm_num)

/-- Upper bound on exp 5. -/
theorem exp_five_lt : Real.exp 5 < 148.4131592 := by
  have h5 : Real.exp 5 = Real.exp 1 ^ 5 := by
    rw [← Real.exp_nat_mul]
    norm_num
  rw [h5]
  calc Real.exp 1 ^ 5 < 2.7182818286 ^ 5 :=
        pow_lt_pow_left₀ Real.exp_one_lt_d9 (le_of_lt (Real.exp_pos 1))
          (by norm_num)
    _ < 148.4131592 := by norm_num

/-- Lower bound on exp 0.1. -/
theorem exp_tenth_ge : (1.1 : ℝ) ≤ Real.exp 0.1 := by
  have h := Real.add_one_le_exp (0.1 : ℝ)
  linarith

/-- Upper bound on exp 0.1 via its tenth power. -/
theorem exp_tenth_lt : Real.exp 0.1 < 1.106 := by
  have h10 : Real.exp 0.1 ^ 10 = Real.exp 1 := by
    rw [← Real.exp_nat_mul]
    norm_num
  by_contra hcon
  push_neg at hcon
  have hpow : (1.106 : ℝ) ^ 10 ≤ Real.exp 0.1 ^ 10 :=
    pow_le_pow_left₀ (by norm_num) hcon 10
  rw [h10] at hpow
  have := Real.exp_one_lt_d9
  nlinarith

/-- Half-even rounding of a value strictly inside a half-open unit window
centred at n equals n. -/
theorem pyRoundHalfEven_eq_of {R : Type} [LinearOrderedField R]
    [FloorRing R] (x : R) (n : ℤ) (h₁ : (n : R) - 1 / 2 < x)
    (h₂ : x < (n : R) + 1 / 2) : pyRoundHalfEven x = n := by
  have hfl : (⌊x⌋ : R) ≤ x := Int.floor_le x
  have hfu : x < (⌊x⌋ : R) + 1 := Int.lt_floor_add_one x
  have hle : ⌊x⌋ ≤ n := by
    have hc : (⌊x⌋ : R) < ((n + 1 : ℤ) : R) := by
      push_cast
      linarith
    have := Int.cast_lt.mp hc
    omega
  have hge : n - 1 ≤ ⌊x⌋ := by
    have hc : ((n - 2 : ℤ) : R) < (⌊x⌋ : R) := by
      push_cast
      linarith
    have := Int.cast_lt.mp hc
    omega
  simp only [pyRoundHalfEven]
  rcases (by omega : ⌊x⌋ = n - 1 ∨ ⌊x⌋ = n) with hf | hf
  · rw [hf]
    have c₂ : (1 : R) / 2 < x - ((n - 1 : ℤ) : R) := by
      push_cast
      linarith
    rw [if_neg (not_lt.mpr (le_of_lt c₂)), if_pos c₂]
    omega
  · rw [hf]
    have c₁ : x - (n : R) < 1 / 2 := by linarith
    rw [if_pos c₁]

/-- Top-2 selection over three scores with a strict maximum and a strict
middle. -/
theorem topk_three (p0 p1 p2 : ℝ) (h01 : p0 < p1) (h20 : p2 < p0)
    (h21 : p2 < p1) : topk [p0, p1, p2] 2 = [(1, p1), (0, p0)] := by
  have hr21 : rankLt (1, p1) (2, p2) := Or.inl h21
  have hr20 : rankLt (0, p0) (2, p2) := Or.inl h20
  have s1 : insertRanked (1, p1) [(2, p2)] = [(1, p1), (2, p2)] := by
    simp only [insertRanked]
    rw [if_pos hr21]
  have hn : ¬ rankLt (0, p0) (1, p1) := by
    intro h
    rcases h with h | ⟨he, _⟩
    · exact absurd h (not_lt.mpr (le_of_lt h01))
    · exact absurd he (ne_of_lt h01)
  have s2 : insertRanked (0, p0) [(1, p1), (2, p2)] =
      [(1, p1), (0, p0), (2, p2)] := by
    simp only [insertRanked]
    rw [if_neg hn, if_pos hr20]
  show (insertRanked (0, p0)
    (insertRanked (1, p1) (insertRanked (2, p2) []))).take 2 = _
  rw [show insertRanked (2, p2) ([] : List (Nat × ℝ)) = [(2, p2)] from rfl,
    s1, s2]
  rfl

/-- The softmax denominator of the example is positive. -/
theorem example_sum_pos :
    (0 : ℝ) < Real.exp 2 + (Real.exp 5 + (Real.exp 0.1 + 0)) := by
  have h₁ := Real.exp_pos (2 : ℝ)
  have h₂ := Real.exp_pos (5 : ℝ)
  have h₃ := Real.exp_pos (0.1 : ℝ)
  linarith

/-- Symbolic evaluation of predict on the example scenario: scores
[2, 5, 0.1], top_k = 2 select classes 1 and 0 in that order. -/
theorem predict_example_eval :
    predict Real.exp sampleFS exampleState "img.png" 2 =
      .ok [⟨"haworthia_fasciata",
        pyRound4 (Real.exp 5 /
          (Real.exp 2 + (Real.exp 5 + (Real.exp 0.1 + 0))))⟩,
        ⟨"echeveria_elegans",
        pyRound4 (Real.exp 2 /
          (Real.exp 2 + (Real.exp 5 + (Real.exp 0.1 + 0))))⟩] := by
  have hspos := example_sum_pos
  have h01 : Real.exp 2 / (Real.exp 2 + (Real.exp 5 + (Real.exp 0.1 + 0))) <
      Real.exp 5 / (Real.exp 2 + (Real.exp 5 + (Real.exp 0.1 + 0))) := by
    rw [div_lt_div_iff_of_pos_right hspos]
    exact Real.exp_lt_exp.mpr (by norm_num)
  have h20 : Real.exp 0.1 / (Real.exp 2 + (Real.exp 5 + (Real.exp 0.1 + 0))) <
      Real.exp 2 / (Real.exp 2 + (Real.exp 5 + (Real.exp 0.1 + 0))) := by
    rw [div_lt_div_iff_of_pos_right hspos]
    exact Real.exp_lt_exp.mpr (by norm_num)
  have h21 : Real.exp 0.1 / (Real.exp 2 + (Real.exp 5 + (Real.exp 0.1 + 0))) <
      Real.exp 5 / (Real.exp 2 + (Real.exp 5 + (Real.exp 0.1 + 0))) := by
    rw [div_lt_div_iff_of_pos_right hspos]
    exact Real.exp_lt_exp.mpr (by norm_num)
  have step1 : predict Real.exp sampleFS exampleState "img.png" 2 =
      formatPredictions exampleLabels
        (topk (softmax Real.exp [2, 5, (0.1 : ℝ)])
          (min 2 exampleLabels.length)) := rfl
  have hsm : softmax Real.exp [2, 5, (0.1 : ℝ)] =
      [Real.exp 2 / (Real.exp 2 + (Real.exp 5 + (Real.exp 0.1 + 0))),
        Real.exp 5 / (Real.exp 2 + (Real.exp 5 + (Real.exp 0.1 + 0))),
        Real.exp 0.1 / (Real.exp 2 + (Real.exp 5 + (Real.exp 0.1 + 0)))] := by
    simp only [softmax, List.map_cons, List.map_nil, List.sum_cons,
      List.sum_nil]
  rw [step1, hsm, show (min 2 exampleLabels.length) = 2 from rfl,
    topk_three _ _ _ h01 h20 h21]
  rfl

/-- The top confidence of the example rounds to 0.9459. -/
theorem round_example_p1 :
    pyRound4 (Real.exp 5 /
      (Real.exp 2 + (Real.exp 5 + (Real.exp 0.1 + 0)))) = 0.9459 := by
  have hspos := example_sum_pos
  have hlo : (0.94585 : ℝ) <
      Real.exp 5 / (Real.exp 2 + (Real.exp 5 + (Real.exp 0.1 + 0))) := by
    rw [lt_div_iff₀ hspos]
    linarith [exp_two_lt, exp_five_gt, exp_tenth_lt]
  have hhi : Real.exp 5 /
      (Real.exp 2 + (Real.exp 5 + (Real.exp 0.1 + 0))) < 0.94595 := by
    rw [div_lt_iff₀ hspos]
    linarith [exp_two_gt, exp_five_lt, exp_tenth_ge]
  unfold pyRound4
  rw [pyRoundHalfEven_eq_of _ 9459 (by push_cast; linarith)
    (by push_cast; linarith)]
  norm_num

/-- The runner-up confidence of the example rounds to 0.0471. -/
theorem round_example_p0 :
    pyRound4 (Real.exp 2 /
      (Real.exp 2 + (Real.exp 5 + (Real.exp 0.1 + 0)))) = 0.0471 := by
  have hspos := example_sum_pos
  have hlo : (0.04705 : ℝ) <
      Real.exp 2 / (Real.exp 2 + (Real.exp 5 + (Real.exp 0.1 + 0))) := by
    rw [lt_div_iff₀ hspos]
    linarith [exp_two_gt, exp_five_lt, exp_tenth_lt]
  have hhi : Real.exp 2 /
      (Real.exp 2 + (Real.exp 5 + (Real.exp 0.1 + 0))) < 0.04715 := by
    rw [div_lt_iff₀ hspos]
    linarith [exp_two_lt, exp_five_gt, exp_tenth_ge]
  unfold pyRound4
  rw [pyRoundHalfEven_eq_of _ 471 (by push_cast; linarith)
    (by push_cast; linarith)]
  norm_num

/-- The full value of predict on the example scenario. -/
theorem predict_example_value :
    predict Real.exp sampleFS exampleState "img.png" 2 =
      .ok [⟨"haworthia_fasciata", 0.9459⟩,
        ⟨"echeveria_elegans", 0.0471⟩] := by
  rw [predict_example_eval, round_example_p1, round_example_p0]

/-- C2 counterexample: on label table 0 echeveria_elegans,
1 haworthia_fasciata, 2 sedum_morganianum with top_k = 2 and raw scores
[2.0, 5.0, 0.1], predict returns the top confidence 0.9459 — softmax gives
0.945865..., which rounds to 0.9459 — so the output differs from the
claimed pair with confidence 0.9460. -/
theorem predict_example_not_claimed :
    predict Real.exp sampleFS exampleState "img.png" 2 =
      .ok [⟨"haworthia_fasciata", 0.9459⟩,
        ⟨"echeveria_elegans", 0.0471⟩] ∧
    predict Real.exp sampleFS exampleState "img.png" 2 ≠
      .ok [⟨"haworthia_fasciata", 0.9460⟩,
        ⟨"echeveria_elegans", 0.0471⟩] := by
  refine ⟨predict_example_value, ?_⟩
  rw [predict_example_value]
  intro hc
  simp only [Except.ok.injEq, List.cons.injEq, Prediction.mk.injEq] at hc
  have : (0.9459 : ℝ) = 0.9460 := hc.1.2
  norm_num at this

/-- C2 amended: the example scenario returns exactly
[(haworthia_fasciata, 0.9459), (echeveria_elegans, 0.0471)] in that order;
the spec misrounds the top softmax value 0.945865... to 0.9460. -/
theorem predict_example_correct_value :
    predict Real.exp sampleFS exampleState "img.png" 2 =
      .ok [⟨"haworthia_fasciata", 0.9459⟩,
        ⟨"echeveria_elegans", 0.0471⟩] :=
  predict_example_value

/-- Witness for C1 at a concrete one-class ready state. -/
theorem predict_topk_contract_witness :
    ∃ preds : List (Prediction ℝ),
      predict Real.exp sampleFS
        ⟨some sampleModel, some [(0, "echeveria_elegans")], some ⟨224⟩⟩
        "a.png" 3 = .ok preds ∧ preds.length = min 3 1 := by
  obtain ⟨sel, _, hpred, hlen, _⟩ :=
    predict_topk_contract sampleModel [(0, "echeveria_elegans")] ⟨224⟩
      sampleFS "a.png" sampleGray 3 rfl rfl (by decide) (by decide)
      (by decide)
  refine ⟨_, hpred, ?_⟩
  rw [List.length_map, hlen]
  rfl

end SucculentML
